import Mathlib

/-!
Verification of the rnnoise-gui audio denoising pipeline

A shallow embedding of the audio-processing core of the rnnoise-gui
repository, together with theorems settling the specification claims.

Sources embedded:
* `src/rnnoise_gui.c` — WAV-file denoising loop (`process_audio`).
* `src/audio_denoiser.c` — real-time duplex callback (`duplex_callback`),
  biquad bandpass stage (`biquad_init_bandpass`, `biquad_process`,
  `on_filter_toggle`), RMS meter (`calculate_rms_volume`), and the stream
  lifecycle controller (`start_processing`, `stop_processing`).
* `src/unnamed/part_000` — an alternative duplex callback variant (its
  stereo-to-mono mix is embedded as `monoMixPart000`).

Modelling conventions:
* C `float`/`double` values are modelled as exact rationals (`ℚ`).  All
  operations the claims depend on (comparisons, clamping, truncation,
  addition, multiplication) are exact in this model; `sqrtf` is modelled
  by its radicand (the value is NaN exactly when the radicand is
  negative).
* C integer types are modelled as `ℤ` with explicit wrap / range checks
  where a conversion occurs: `int16CastOfInt` is the (wrapping)
  int-to-int16 conversion, `int16CastOfFloat` is the float-to-int16
  conversion, which C leaves undefined for values whose truncation is
  outside the 16-bit range (modelled as `none`).
* The opaque RNNoise model (`rnnoise_process_frame`) is a parameter
  `rn : σ → Window480 → σ × Window480`: it consumes a 480-sample float
  window and a state and produces a new state and a 480-sample window,
  exactly the contract of the C prototype.
* GTK widget pointers and the miniaudio device are not data the claims
  depend on; the lifecycle controller models them by explicit resource
  flags and ghost counters.
-/

/-- Truncation of a rational toward zero, the C semantics of
float-to-integer conversion (C17 6.3.1.4: the fractional part is
discarded). -/
def ratTrunc (q : ℚ) : ℤ := if 0 ≤ q then ⌊q⌋ else ⌈q⌉

/-- C conversion of a wider integer to `int16_t` (two-complement wrap,
the universal implementation-defined behaviour for integer-to-integer
conversion). -/
def int16CastOfInt (z : ℤ) : ℤ := (z + 32768) % 65536 - 32768

/-- C conversion of a `float` to `int16_t`.  Defined (as truncation
toward zero) when the truncated value is representable in `int16_t`;
undefined behaviour otherwise (C17 6.3.1.4), modelled as `none`.
This is the raw cast `(int16_t)buffer[j]` at `src/audio_denoiser.c:218`,
which is applied with no clamping. -/
def int16CastOfFloat (q : ℚ) : Option ℤ :=
  if -32768 ≤ ratTrunc q ∧ ratTrunc q ≤ 32767 then some (ratTrunc q) else none

/-- The float-to-PCM conversion of `src/rnnoise_gui.c:278-283` (also
`src/unnamed/part_000:62-67`): clamp above `32767.0`, clamp below
`-32768.0`, then cast to `int16_t`.  After the two clamps the value is
always in range, so the cast is plain truncation. -/
def rnnoiseGuiConvert (q : ℚ) : ℤ :=
  let s1 := if 32767 < q then (32767 : ℚ) else q
  let s2 := if s1 < -32768 then (-32768 : ℚ) else s1
  ratTrunc s2

/-- The stereo-to-mono mix of `src/audio_denoiser.c:197-199`:
`int32_t l, r; int16_t mono = (int16_t)((l + r) / 2);`.  The sum is
formed in `int32_t` (no overflow for 16-bit inputs), C `/` truncates
toward zero, and the result is converted to `int16_t`. -/
def monoMixDenoiser (l r : ℤ) : ℤ := int16CastOfInt ((l + r).tdiv 2)

/-- The stereo-to-mono mix of `src/unnamed/part_000:30-32`:
`float_buffer[j] = (float)(l + r / 2);` — note the missing parentheses:
this computes `l + (r / 2)`, not the average `(l + r) / 2` that the
adjacent comment ("Convert the average to float.") promises. -/
def monoMixPart000 (l r : ℤ) : ℚ := ((l + r.tdiv 2 : ℤ) : ℚ)

/-- The mean-square quantity of `calculate_rms_volume`
(`src/audio_denoiser.c:111-118`): `sum` of `samples[i] * samples[i]`
divided by `frameCount`.  The C function returns
`sqrt(mean) / 32768.0`; the square root is modelled by this radicand
(`sqrt` yields NaN exactly when its argument is negative). -/
def calculate_rms_volume_radicand (samples : List ℤ) : ℚ :=
  ((samples.map fun s => ((s * s : ℤ) : ℚ)).sum) / (samples.length : ℚ)

/-- The quantity the duplex callback actually feeds to `sqrtf` for the
VU meter (`src/audio_denoiser.c:202,210`): it accumulates
`volume += l * r` — the product of the left and right channel samples,
not a square — and divides by `to_process`.  The posted volume is
`sqrtf(radicand) / 32768.0f`, which is NaN whenever this radicand is
negative. -/
def duplexVolumeRadicand (chunk : List (ℤ × ℤ)) : ℚ :=
  ((chunk.map fun p => ((p.1 * p.2 : ℤ) : ℚ)).sum) / (chunk.length : ℚ)

/-- A fixed 480-sample float window, the unit of RNNoise processing
(`RNNOISE_FRAME_SIZE` / `FRAME_SIZE` = 480 in all sources). -/
def Window480 : Type := { l : List ℚ // l.length = 480 }

/-- Build the 480-sample window from the valid mono samples of one
block: the first `to_process` positions carry the converted samples and
the remaining positions are zero (the zero-padding loops at
`src/audio_denoiser.c:206-208` and `src/rnnoise_gui.c:270-272`). -/
def mkWindow (mono : List ℚ) : Window480 :=
  ⟨mono.take 480 ++ List.replicate (480 - mono.length) 0, by
    simp [List.length_take, List.length_replicate]
    omega⟩

/-- Biquad filter embedding of the `BiquadFilter` struct
(`src/audio_denoiser.c:43-46`): five coefficients and four persistent
state scalars. -/
structure BiquadFilter where
  b0 : ℚ
  b1 : ℚ
  b2 : ℚ
  a1 : ℚ
  a2 : ℚ
  x1 : ℚ
  x2 : ℚ
  y1 : ℚ
  y2 : ℚ
deriving DecidableEq

/-- `biquad_init_bandpass` (`src/audio_denoiser.c:127-148`).  The C code
computes `w0 = 2π·f0/fs`, `alpha = sinf(w0)/(2Q)` and `cos_w0 =
cosf(w0)`; the transcendental values `sinf(w0)` and `cosf(w0)` are
supplied here as exact rational parameters `sinw0` and `cosw0` (the
frequency arguments enter the coefficients only through them).  The raw
bandpass coefficients are normalized by `a0 = 1 + alpha` and all four
state scalars are zeroed. -/
def biquad_init_bandpass (sinw0 cosw0 Q : ℚ) : BiquadFilter :=
  let alpha := sinw0 / (2 * Q)
  let a0 := 1 + alpha
  { b0 := alpha / a0
    b1 := 0 / a0
    b2 := (-alpha) / a0
    a1 := (-2 * cosw0) / a0
    a2 := (1 - alpha) / a0
    x1 := 0, x2 := 0, y1 := 0, y2 := 0 }

/-- `biquad_process` (`src/audio_denoiser.c:156-167`): the direct-form-I
recurrence `out = b0*in + b1*x1 + b2*x2 - a1*y1 - a2*y2`, followed by
the history shift.  Returns the updated filter and the output sample. -/
def biquad_process (f : BiquadFilter) (inp : ℚ) : BiquadFilter × ℚ :=
  let out := f.b0 * inp + f.b1 * f.x1 + f.b2 * f.x2 - f.a1 * f.y1 - f.a2 * f.y2
  ({ f with x2 := f.x1, x1 := inp, y2 := f.y1, y1 := out }, out)

/-- The audio-processing slice of the `AppState` struct
(`src/audio_denoiser.c:51-81`), generic in the opaque RNNoise state type
`σ`.  GTK widget pointers and the miniaudio context/device are not part
of the data the processing claims depend on and are omitted. -/
structure DenoiserState (σ : Type) where
  bandpass_filter1 : BiquadFilter
  bandpass_filter2 : BiquadFilter
  rnnoise_state : σ
  is_processing : Bool
  filter_enabled : Bool
  device_initialized : Bool

/-- `on_filter_toggle` (`src/audio_denoiser.c:344-353`): records the
toggle state in `filter_enabled` and, when the stage is enabled,
reinitializes both cascaded bandpass filters (500 Hz and 2000 Hz, both
Q = 2.0).  `sin1, cos1` and `sin2, cos2` stand for the `sinf`/`cosf`
values at the `w0` of the two centre frequencies. -/
def on_filter_toggle {σ : Type} (s : DenoiserState σ) (active : Bool)
    (sin1 cos1 sin2 cos2 : ℚ) : DenoiserState σ :=
  let s2 := { s with filter_enabled := active }
  if active then
    { s2 with
      bandpass_filter1 := biquad_init_bandpass sin1 cos1 2
      bandpass_filter2 := biquad_init_bandpass sin2 cos2 2 }
  else s2

/-- The 480-sample suppression window one duplex block builds
(`src/audio_denoiser.c:193-208`): the stereo frames of the block mixed to
mono by `monoMixDenoiser`, converted to float, zero-padded to 480. -/
def duplexWindow (chunk : List (ℤ × ℤ)) : Window480 :=
  mkWindow (chunk.map fun p => ((monoMixDenoiser p.1 p.2 : ℤ) : ℚ))

/-- The 480-sample window one `process_audio` iteration builds
(`src/rnnoise_gui.c:264-272`): the samples read from the file converted
to float, zero-padded to 480. -/
def guiWindow (chunk : List ℤ) : Window480 :=
  mkWindow (chunk.map fun z => ((z : ℤ) : ℚ))

/-- Observable trace of one `duplex_callback` invocation:
`windows` records, per processed block, the 480-sample buffer built for
the suppression stage together with `to_process` (the valid length of
the block); `writes` records, in order, the mono value written to both
channels of each output frame (`none` when the float-to-int16 cast is
undefined); `posts` records the radicand handed to `sqrtf` for each
VU-meter post. -/
structure DuplexTrace where
  windows : List (Window480 × ℕ)
  writes : List (Option ℤ)
  posts : List ℚ

/-- The block loop of `duplex_callback` (`src/audio_denoiser.c:187-238`),
by recursion on a fuel bounded below by the number of remaining frames.
Each iteration takes `to_process = min(480, remaining)` stereo frames,
mixes them to mono (`monoMixDenoiser`), zero-pads to a 480 window,
computes the VU radicand from `volume += l * r`, then either runs
RNNoise and writes back the first `to_process` samples via the raw
`(int16_t)` cast (filter enabled) or writes the mono mix directly
(bypass).  Both output channels receive the same value, so one entry of
`writes` stands for one output frame. -/
def duplexLoop {σ : Type} (rn : σ → Window480 → σ × Window480)
    (filterEnabled : Bool) (st : σ) (frames : List (ℤ × ℤ)) :
    ℕ → σ × DuplexTrace
  | 0 => (st, ⟨[], [], []⟩)
  | fuel + 1 =>
    if frames = [] then (st, ⟨[], [], []⟩)
    else
      let chunk := frames.take 480
      let rest := frames.drop 480
      let tp := chunk.length
      let buf : Window480 := duplexWindow chunk
      let radicand := duplexVolumeRadicand chunk
      let step : σ × List (Option ℤ) :=
        if filterEnabled then
          let pr := rn st buf
          (pr.1, (pr.2.val.take tp).map int16CastOfFloat)
        else
          (st, chunk.map fun p => some (monoMixDenoiser p.1 p.2))
      let next := duplexLoop rn filterEnabled step.1 rest fuel
      (next.1, ⟨(buf, tp) :: next.2.windows, step.2 ++ next.2.writes,
                radicand :: next.2.posts⟩)

/-- `duplex_callback` (`src/audio_denoiser.c:176-239`).  When the guard
`!state || !state->is_processing || !pInput || !pOutput` fires the
output buffer is zero-filled (`memset`); the pointer checks are
vacuously true in this embedding, leaving `is_processing`.  Otherwise
the block loop runs with fuel `frames.length`, which exceeds the number
of blocks whenever the input is nonempty. -/
def duplex_callback {σ : Type} (rn : σ → Window480 → σ × Window480)
    (s : DenoiserState σ) (frames : List (ℤ × ℤ)) :
    DenoiserState σ × DuplexTrace :=
  if s.is_processing = false then
    (s, ⟨[], List.replicate frames.length (some 0), []⟩)
  else
    let r := duplexLoop rn s.filter_enabled s.rnnoise_state frames frames.length
    ({ s with rnnoise_state := r.1 }, r.2)

/-- The frame loop of `process_audio` (`src/rnnoise_gui.c:260-297`), by
recursion on a fuel bounded below by the number of remaining samples.
Each iteration reads up to 480 mono samples (`fread`), converts them to
float, zero-pads the window, runs RNNoise, converts the first `read`
output samples back to PCM with the clamping conversion, and appends
them to the output — except for the first window, whose converted
output is discarded (`if (!first) fwrite(...)`, the RNNoise warm-up
skip). -/
def processLoopGui {σ : Type} (rn : σ → Window480 → σ × Window480)
    (st : σ) (first : Bool) (input : List ℤ) : ℕ → σ × List ℤ
  | 0 => (st, [])
  | fuel + 1 =>
    if input = [] then (st, [])
    else
      let chunk := input.take 480
      let read := chunk.length
      let x : Window480 := guiWindow chunk
      let pr := rn st x
      let outFrame := (pr.2.val.take read).map rnnoiseGuiConvert
      let next := processLoopGui rn pr.1 false (input.drop 480) fuel
      (next.1, (if first then [] else outFrame) ++ next.2)

/-- `process_audio` of `src/rnnoise_gui.c:186-309`, restricted to its
processing loop: the WAV-header I/O and GTK reporting around it are
glue.  `input` is the mono 16-bit sample stream of the file and the result
is the final RNNoise state and the PCM samples written to the output
file. -/
def process_audio {σ : Type} (rn : σ → Window480 → σ × Window480)
    (st : σ) (input : List ℤ) : σ × List ℤ :=
  processLoopGui rn st true input input.length

/-- Lifecycle-controller state: the flag fields of `AppState`
(`src/audio_denoiser.c:77-80`), the status label, the button
sensitivities, plus ghost instrumentation — `deviceRunning` (the device
is delivering callbacks), `deviceLive` (a device handle is allocated),
`rnLive` (an RNNoise allocation is live), `rnNonNull` (the
`rnnoise_state` pointer is non-NULL), and call counters for
`ma_device_init` / `ma_device_uninit` / `rnnoise_destroy`. -/
structure LifecycleState where
  deviceRunning : Bool
  deviceLive : Bool
  device_initialized : Bool
  rnLive : Bool
  rnNonNull : Bool
  is_processing : Bool
  statusLabel : String
  startSensitive : Bool
  stopSensitive : Bool
  devInitCalls : ℕ
  devUninitCalls : ℕ
  rnDestroyCalls : ℕ
deriving DecidableEq

/-- Outcome environment for one `start_processing` run: the selected
combo-box indices (`gtk_combo_box_get_active` returns `-1` when nothing
is selected) and the success/failure of `rnnoise_create`,
`ma_device_init` and `ma_device_start`. -/
structure StartEnv where
  input_index : ℤ
  output_index : ℤ
  rnCreateOk : Bool
  devInitOk : Bool
  devStartOk : Bool

/-- `start_processing` (`src/audio_denoiser.c:245-294`).  Faithful to
the source, including its two loose ends: on `ma_device_init` /
`ma_device_start` failure the freed `rnnoise_state` pointer is left
non-NULL (dangling), and on `ma_device_start` failure the
`device_initialized` flag is left `true` even though the device was
uninitialized. -/
def start_processing (env : StartEnv) (s : LifecycleState) : LifecycleState :=
  if env.input_index < 0 ∨ env.output_index < 0 then
    { s with statusLabel := "Select input/output devices" }
  else
    let s1 := if env.rnCreateOk then { s with rnLive := true, rnNonNull := true }
              else { s with rnNonNull := false }
    if env.rnCreateOk = false then
      { s1 with statusLabel := "Failed to init RNNoise" }
    else
      let s2 := { s1 with devInitCalls := s1.devInitCalls + 1 }
      if env.devInitOk = false then
        { s2 with statusLabel := "Failed to init device",
                  rnLive := false, rnDestroyCalls := s2.rnDestroyCalls + 1 }
      else
        let s3 := { s2 with deviceLive := true, device_initialized := true }
        if env.devStartOk = false then
          { s3 with statusLabel := "Failed to start device",
                    deviceLive := false, devUninitCalls := s3.devUninitCalls + 1,
                    rnLive := false, rnDestroyCalls := s3.rnDestroyCalls + 1 }
        else
          { s3 with deviceRunning := true, is_processing := true,
                    statusLabel := "Processing...",
                    startSensitive := false, stopSensitive := true }

/-- `stop_processing` (`src/audio_denoiser.c:300-317`): a no-op unless
`is_processing`; otherwise uninitialize the device if initialized
(which stops callback delivery and releases the handle), then destroy
the RNNoise state if the pointer is non-NULL, then clear
`is_processing`, set the label and flip the button sensitivities. -/
def stop_processing (s : LifecycleState) : LifecycleState :=
  if s.is_processing then
    let s1 := if s.device_initialized then
        { s with deviceRunning := false, deviceLive := false,
                 device_initialized := false,
                 devUninitCalls := s.devUninitCalls + 1 }
      else s
    let s2 := if s1.rnNonNull then
        { s1 with rnLive := false, rnNonNull := false,
                  rnDestroyCalls := s1.rnDestroyCalls + 1 }
      else s1
    { s2 with is_processing := false, statusLabel := "Stopped",
              startSensitive := true, stopSensitive := false }
  else s

/-- The intermediate states a `stop_processing` call passes through, in
program order: the entry state, the state after the device branch, the
state after the RNNoise branch, and the final state.  Used to check
that no intermediate point has the device delivering callbacks while
the suppression state is freed. -/
def stop_steps (s : LifecycleState) : List LifecycleState :=
  if s.is_processing then
    let s1 := if s.device_initialized then
        { s with deviceRunning := false, deviceLive := false,
                 device_initialized := false,
                 devUninitCalls := s.devUninitCalls + 1 }
      else s
    let s2 := if s1.rnNonNull then
        { s1 with rnLive := false, rnNonNull := false,
                  rnDestroyCalls := s1.rnDestroyCalls + 1 }
      else s1
    let s3 := { s2 with is_processing := false, statusLabel := "Stopped",
                        startSensitive := true, stopSensitive := false }
    [s, s1, s2, s3]
  else [s]

/-- A concrete trivial RNNoise instance (identity model on a unit
state), used to instantiate the opaque suppressor in witnesses and
counterexamples. -/
def idRn : Unit → Window480 → Unit × Window480 := fun _ b => ((), b)

/-- A concrete RNNoise instance whose output window is the constant
value `c` in every position, used to drive the output conversion with a
chosen suppressor output. -/
def constRn (c : ℚ) : Unit → Window480 → Unit × Window480 :=
  fun _ _ => ((), mkWindow (List.replicate 480 c))

/-- A concrete `DenoiserState` for witnesses: processing active, filter
enabled, fresh unit RNNoise state, zeroed biquad filters. -/
def sampleState : DenoiserState Unit :=
  { bandpass_filter1 := ⟨0, 0, 0, 0, 0, 0, 0, 0, 0⟩
    bandpass_filter2 := ⟨0, 0, 0, 0, 0, 0, 0, 0, 0⟩
    rnnoise_state := ()
    is_processing := true
    filter_enabled := true
    device_initialized := true }

/-- The Idle lifecycle state: no resources held, not processing, the
initial status label of `src/audio_denoiser.c:477`. -/
def idleLifecycle : LifecycleState :=
  { deviceRunning := false, deviceLive := false, device_initialized := false,
    rnLive := false, rnNonNull := false, is_processing := false,
    statusLabel := "Select devices and click Start",
    startSensitive := true, stopSensitive := false,
    devInitCalls := 0, devUninitCalls := 0, rnDestroyCalls := 0 }

/-- The Active lifecycle state reached by a fully successful
`start_processing`: device running and delivering callbacks, RNNoise
state live, processing flag set. -/
def activeLifecycle : LifecycleState :=
  { deviceRunning := true, deviceLive := true, device_initialized := true,
    rnLive := true, rnNonNull := true, is_processing := true,
    statusLabel := "Processing...",
    startSensitive := false, stopSensitive := true,
    devInitCalls := 1, devUninitCalls := 0, rnDestroyCalls := 0 }

/-!
Helper lemmas
-/

/-- Characterization of truncating division by two in terms of Euclidean
division, so that `omega` can reason about it. -/
theorem tdivTwoChar (m : ℤ) : m.tdiv 2 = if 0 ≤ m then m / 2 else -(-m / 2) := by
  split
  · exact Int.tdiv_eq_ediv (by assumption) (by norm_num)
  · have h : (0 : ℤ) ≤ -m := by omega
    have h2 := Int.tdiv_eq_ediv h (by norm_num : (0 : ℤ) ≤ 2)
    rw [Int.neg_tdiv] at h2
    omega

/-- The wrapping int-to-int16 conversion is the identity on values that
are already in the 16-bit range. -/
theorem int16CastOfInt_eq_self (v : ℤ) (h1 : -32768 ≤ v) (h2 : v ≤ 32767) :
    int16CastOfInt v = v := by
  unfold int16CastOfInt
  omega

/-- The window built by `mkWindow` from a block of at most 480 samples:
its first `mono.length` entries are the block and the rest is the zero
padding. -/
theorem mkWindow_val (mono : List ℚ) (h : mono.length ≤ 480) :
    (mkWindow mono).val = mono ++ List.replicate (480 - mono.length) 0 := by
  show mono.take 480 ++ List.replicate (480 - mono.length) 0 = _
  rw [List.take_of_length_le h]

/-- Dropping the valid prefix of a padded window leaves exactly the zero
padding. -/
theorem mkWindow_drop (mono : List ℚ) (h : mono.length ≤ 480) :
    (mkWindow mono).val.drop mono.length =
      List.replicate (480 - mono.length) 0 := by
  rw [mkWindow_val mono h]
  exact List.drop_left mono _


/-- One-step unfolding of `duplexLoop` on a nonempty frame list with the
noise filter enabled. -/
theorem duplexLoop_succ_true {σ : Type} (rn : σ → Window480 → σ × Window480)
    (st : σ) (frames : List (ℤ × ℤ)) (fuel : ℕ) (h : ¬ frames = []) :
    duplexLoop rn true st frames (fuel + 1) =
      ((duplexLoop rn true (rn st (duplexWindow (frames.take 480))).1
          (frames.drop 480) fuel).1,
       ⟨(duplexWindow (frames.take 480), (frames.take 480).length)
          :: (duplexLoop rn true (rn st (duplexWindow (frames.take 480))).1
              (frames.drop 480) fuel).2.windows,
        (((rn st (duplexWindow (frames.take 480))).2.val.take
            (frames.take 480).length).map int16CastOfFloat)
          ++ (duplexLoop rn true (rn st (duplexWindow (frames.take 480))).1
              (frames.drop 480) fuel).2.writes,
        duplexVolumeRadicand (frames.take 480)
          :: (duplexLoop rn true (rn st (duplexWindow (frames.take 480))).1
              (frames.drop 480) fuel).2.posts⟩) := by
  rw [duplexLoop, if_neg h]
  rfl

/-- One-step unfolding of `duplexLoop` on a nonempty frame list with the
noise filter disabled (bypass). -/
theorem duplexLoop_succ_false {σ : Type} (rn : σ → Window480 → σ × Window480)
    (st : σ) (frames : List (ℤ × ℤ)) (fuel : ℕ) (h : ¬ frames = []) :
    duplexLoop rn false st frames (fuel + 1) =
      ((duplexLoop rn false st (frames.drop 480) fuel).1,
       ⟨(duplexWindow (frames.take 480), (frames.take 480).length)
          :: (duplexLoop rn false st (frames.drop 480) fuel).2.windows,
        ((frames.take 480).map fun p => some (monoMixDenoiser p.1 p.2))
          ++ (duplexLoop rn false st (frames.drop 480) fuel).2.writes,
        duplexVolumeRadicand (frames.take 480)
          :: (duplexLoop rn false st (frames.drop 480) fuel).2.posts⟩) := by
  rw [duplexLoop, if_neg h]
  rfl

/-- Frame-buffer-adapter invariants of the duplex block loop: with
enough fuel, the loop produces `⌈N/480⌉` windows, writes exactly one
output frame per valid input frame, posts one VU value per window, and
every window is a full 480-sample buffer whose positions past its
`to_process` prefix are exactly the zero padding. -/
theorem duplexLoop_spec {σ : Type} (rn : σ → Window480 → σ × Window480) :
    ∀ (fe : Bool) (fuel : ℕ) (st : σ) (frames : List (ℤ × ℤ)),
      frames.length ≤ fuel →
      (duplexLoop rn fe st frames fuel).2.windows.length
          = (frames.length + 479) / 480
        ∧ (duplexLoop rn fe st frames fuel).2.writes.length = frames.length
        ∧ ((duplexLoop rn fe st frames fuel).2.windows.map fun w => w.2).sum
            = frames.length
        ∧ (duplexLoop rn fe st frames fuel).2.posts.length
            = (duplexLoop rn fe st frames fuel).2.windows.length
        ∧ ∀ w ∈ (duplexLoop rn fe st frames fuel).2.windows,
            w.2 ≤ 480 ∧ w.1.val.length = 480
              ∧ w.1.val.drop w.2 = List.replicate (480 - w.2) 0 := by
  intro fe fuel
  induction fuel with
  | zero =>
    intro st frames h
    have hf : frames = [] := by
      cases frames with
      | nil => rfl
      | cons a l => simp at h
    subst hf
    simp [duplexLoop]
  | succ fuel ih =>
    intro st frames h
    by_cases hf : frames = []
    · subst hf; simp [duplexLoop]
    · have hlen : 0 < frames.length := List.length_pos.mpr hf
      have hfuel : (frames.drop 480).length ≤ fuel := by
        rw [List.length_drop]; omega
      have htp : (frames.take 480).length = min 480 frames.length :=
        List.length_take _ _
      have htp480 : (frames.take 480).length ≤ 480 := by omega
      have hwin : ∀ p ∈ [(duplexWindow (frames.take 480),
            (frames.take 480).length)],
          p.2 ≤ 480 ∧ p.1.val.length = 480
            ∧ p.1.val.drop p.2 = List.replicate (480 - p.2) 0 := by
        intro p hp
        simp only [List.mem_singleton] at hp
        subst hp
        have hmono : ((frames.take 480).map fun p =>
            ((monoMixDenoiser p.1 p.2 : ℤ) : ℚ)).length
              = (frames.take 480).length := List.length_map _ _
        refine ⟨htp480, (duplexWindow (frames.take 480)).property, ?_⟩
        show (mkWindow _).val.drop (frames.take 480).length = _
        have hd := mkWindow_drop ((frames.take 480).map fun p =>
          ((monoMixDenoiser p.1 p.2 : ℤ) : ℚ)) (by rw [hmono]; exact htp480)
        rw [hmono] at hd
        exact hd
      cases fe with
      | false =>
        obtain ⟨iw, iwr, isum, ips, imem⟩ := ih st (frames.drop 480) hfuel
        rw [duplexLoop_succ_false rn st frames fuel hf]
        refine ⟨?_, ?_, ?_, ?_, ?_⟩
        · simp only [DuplexTrace.windows, List.length_cons, iw,
            List.length_drop]
          omega
        · simp only [DuplexTrace.writes, List.length_append, iwr,
            List.length_map, List.length_drop]
          omega
        · simp only [DuplexTrace.windows, List.map_cons, List.sum_cons, isum,
            List.length_drop]
          omega
        · simp only [DuplexTrace.posts, DuplexTrace.windows,
            List.length_cons, ips]
        · intro w hw
          simp only [DuplexTrace.windows, List.mem_cons] at hw
          rcases hw with hw | hw
          · exact hwin w (by simp [hw])
          · exact imem w hw
      | true =>
        obtain ⟨iw, iwr, isum, ips, imem⟩ :=
          ih (rn st (duplexWindow (frames.take 480))).1 (frames.drop 480) hfuel
        rw [duplexLoop_succ_true rn st frames fuel hf]
        refine ⟨?_, ?_, ?_, ?_, ?_⟩
        · simp only [DuplexTrace.windows, List.length_cons, iw,
            List.length_drop]
          omega
        · simp only [DuplexTrace.writes, List.length_append, iwr,
            List.length_map, List.length_take,
            ((rn st (duplexWindow (frames.take 480))).2).property,
            List.length_drop]
          omega
        · simp only [DuplexTrace.windows, List.map_cons, List.sum_cons, isum,
            List.length_drop]
          omega
        · simp only [DuplexTrace.posts, DuplexTrace.windows,
            List.length_cons, ips]
        · intro w hw
          simp only [DuplexTrace.windows, List.mem_cons] at hw
          rcases hw with hw | hw
          · exact hwin w (by simp [hw])
          · exact imem w hw

/-- One-step unfolding of `processLoopGui` on a nonempty input. -/
theorem processLoopGui_succ {σ : Type} (rn : σ → Window480 → σ × Window480)
    (st : σ) (first : Bool) (input : List ℤ) (fuel : ℕ) (h : ¬ input = []) :
    processLoopGui rn st first input (fuel + 1) =
      ((processLoopGui rn (rn st (guiWindow (input.take 480))).1 false
          (input.drop 480) fuel).1,
       (if first then []
        else ((rn st (guiWindow (input.take 480))).2.val.take
          (input.take 480).length).map rnnoiseGuiConvert)
         ++ (processLoopGui rn (rn st (guiWindow (input.take 480))).1 false
             (input.drop 480) fuel).2) := by
  rw [processLoopGui, if_neg h]

/-- After the warm-up window has been consumed (`first = false`), the
file loop writes exactly one output sample per remaining input sample. -/
theorem processLoopGui_false_length {σ : Type}
    (rn : σ → Window480 → σ × Window480) :
    ∀ (fuel : ℕ) (st : σ) (input : List ℤ), input.length ≤ fuel →
      ((processLoopGui rn st false input fuel).2).length = input.length := by
  intro fuel
  induction fuel with
  | zero =>
    intro st input h
    have hi : input = [] := by
      cases input with
      | nil => rfl
      | cons a l => simp at h
    subst hi
    simp [processLoopGui]
  | succ fuel ih =>
    intro st input h
    by_cases hi : input = []
    · subst hi; simp [processLoopGui]
    · rw [processLoopGui_succ rn st false input fuel hi]
      have hlen : 0 < input.length := List.length_pos.mpr hi
      have hfuel : (input.drop 480).length ≤ fuel := by
        rw [List.length_drop]; omega
      have hrec := ih (rn st (guiWindow (input.take 480))).1
        (input.drop 480) hfuel
      simp only [Bool.false_eq_true, if_false, List.nil_append,
        List.length_append, List.length_map, List.length_take,
        ((rn st (guiWindow (input.take 480))).2).property, hrec,
        List.length_drop]
      omega

/-!
Claim theorems
-/

/-- C9 — Bandpass reset on toggle: enabling the bandpass stage via
`on_filter_toggle` recomputes the coefficients of both cascaded filters,
normalized by `a0 = 1 + alpha` (so the stored recurrence effectively
has `a0 = 1`), and zeroes all four persistent state scalars of each
filter; consequently the first sample processed through either filter
after the toggle is exactly `b0 * input`, with zero contribution from
stale history, under the recurrence implemented by `biquad_process`. -/
theorem bandpass_reset_on_toggle {σ : Type} (s : DenoiserState σ)
    (sin1 cos1 sin2 cos2 x : ℚ) :
    (on_filter_toggle s true sin1 cos1 sin2 cos2).filter_enabled = true
      ∧ (on_filter_toggle s true sin1 cos1 sin2 cos2).bandpass_filter1
          = biquad_init_bandpass sin1 cos1 2
      ∧ (on_filter_toggle s true sin1 cos1 sin2 cos2).bandpass_filter2
          = biquad_init_bandpass sin2 cos2 2
      ∧ (biquad_init_bandpass sin1 cos1 2).x1 = 0
      ∧ (biquad_init_bandpass sin1 cos1 2).x2 = 0
      ∧ (biquad_init_bandpass sin1 cos1 2).y1 = 0
      ∧ (biquad_init_bandpass sin1 cos1 2).y2 = 0
      ∧ (biquad_init_bandpass sin2 cos2 2).x1 = 0
      ∧ (biquad_init_bandpass sin2 cos2 2).x2 = 0
      ∧ (biquad_init_bandpass sin2 cos2 2).y1 = 0
      ∧ (biquad_init_bandpass sin2 cos2 2).y2 = 0
      ∧ (biquad_init_bandpass sin1 cos1 2).b0
          = (sin1 / (2 * 2)) / (1 + sin1 / (2 * 2))
      ∧ (biquad_init_bandpass sin2 cos2 2).b0
          = (sin2 / (2 * 2)) / (1 + sin2 / (2 * 2))
      ∧ (biquad_process (biquad_init_bandpass sin1 cos1 2) x).2
          = (biquad_init_bandpass sin1 cos1 2).b0 * x
      ∧ (biquad_process (biquad_init_bandpass sin2 cos2 2) x).2
          = (biquad_init_bandpass sin2 cos2 2).b0 * x := by
  refine ⟨?_, ?_, ?_, rfl, rfl, rfl, rfl, rfl, rfl, rfl, rfl, rfl, rfl, ?_, ?_⟩
  · simp [on_filter_toggle]
  · simp [on_filter_toggle]
  · simp [on_filter_toggle]
  · simp [biquad_process, biquad_init_bandpass]
  · simp [biquad_process, biquad_init_bandpass]

/-- C6 — Idempotent stop: a second `stop_processing` call immediately
after a first one changes nothing (in particular the device-uninit and
RNNoise-destroy call counters do not move again, so nothing is released
twice), and a `stop_processing` call from a non-processing (Idle) state
is a complete no-op: no flag, counter or status label changes. -/
theorem stop_idempotent (s : LifecycleState) :
    stop_processing (stop_processing s) = stop_processing s
      ∧ (s.is_processing = false → stop_processing s = s) := by
  have hnp : ∀ t : LifecycleState, t.is_processing = false →
      stop_processing t = t := by
    intro t ht
    simp [stop_processing, ht]
  constructor
  · by_cases h : s.is_processing
    · apply hnp
      simp [stop_processing, h]
    · have h0 : s.is_processing = false := by
        simpa using h
      rw [hnp s h0, hnp s h0]
  · intro h
    exact hnp s h

/-- Witness for C6 at the Idle state: stopping from Idle is a no-op and
stopping twice equals stopping once. -/
theorem stop_idempotent_witness :
    idleLifecycle.is_processing = false
      ∧ stop_processing idleLifecycle = idleLifecycle
      ∧ stop_processing (stop_processing idleLifecycle)
          = stop_processing idleLifecycle :=
  ⟨rfl, (stop_idempotent idleLifecycle).2 rfl,
    (stop_idempotent idleLifecycle).1⟩

/-- C4 — Stop ordering: along every intermediate state of a
`stop_processing` call (entry, after the device branch, after the
RNNoise branch, final), if the device is still delivering callbacks
then the suppression state is still live — the device-uninit step
precedes the `rnnoise_destroy` step, so a real-time callback can never
observe a freed suppression state.  The hypotheses say the entry state
is well-formed: a running device implies an initialized device and a
live suppression state. -/
theorem stop_ordering_safe (s : LifecycleState)
    (hdev : s.deviceRunning = true → s.device_initialized = true)
    (hlive : s.deviceRunning = true → s.rnLive = true) :
    ∀ t ∈ stop_steps s, t.deviceRunning = true → t.rnLive = true := by
  intro t ht
  rw [stop_steps] at ht
  by_cases h : s.is_processing
  · by_cases hdi : s.device_initialized <;> by_cases hnn : s.rnNonNull <;>
      simp only [h, hdi, hnn, if_true, if_false, Bool.not_eq_true,
        List.mem_cons, List.mem_singleton, List.not_mem_nil, or_false] at ht <;>
      rcases ht with rfl | rfl | rfl | rfl <;>
      simp_all
  · rw [if_neg h] at ht
    simp only [List.mem_singleton] at ht
    subst ht
    exact hlive

/-- Witness for C4 at the Active state: no step of a stop from Active
has the device running while the suppression state is freed. -/
theorem stop_ordering_safe_witness :
    (activeLifecycle.deviceRunning = true →
        activeLifecycle.device_initialized = true)
      ∧ (activeLifecycle.deviceRunning = true → activeLifecycle.rnLive = true)
      ∧ ∀ t ∈ stop_steps activeLifecycle,
          t.deviceRunning = true → t.rnLive = true :=
  ⟨fun _ => rfl, fun _ => rfl,
    stop_ordering_safe activeLifecycle (fun _ => rfl) (fun _ => rfl)⟩

/-- C5 — start() failure atomicity: from an Idle state (not processing,
no live RNNoise allocation, no live device), every failing
`start_processing` run leaves the controller Idle with nothing leaked:
if the selection is invalid or `rnnoise_create` fails, the device is
never touched (`ma_device_init` is not called); if `ma_device_init`
fails, the RNNoise state has been released; if `ma_device_start` fails,
the device has been uninitialized and the RNNoise state released; and
on every path `is_processing` ends up `true` exactly when all stages
succeeded. -/
theorem start_failure_atomic (env : StartEnv) (s : LifecycleState)
    (h1 : s.is_processing = false) (h2 : s.rnLive = false)
    (h3 : s.deviceLive = false) (h4 : s.deviceRunning = false) :
    ((env.input_index < 0 ∨ env.output_index < 0 ∨ env.rnCreateOk = false) →
        (start_processing env s).devInitCalls = s.devInitCalls
          ∧ (start_processing env s).deviceLive = false)
      ∧ ((0 ≤ env.input_index ∧ 0 ≤ env.output_index ∧ env.rnCreateOk = true
            ∧ env.devInitOk = false) →
          (start_processing env s).rnLive = false)
      ∧ ((0 ≤ env.input_index ∧ 0 ≤ env.output_index ∧ env.rnCreateOk = true
            ∧ env.devInitOk = true ∧ env.devStartOk = false) →
          (start_processing env s).rnLive = false
            ∧ (start_processing env s).deviceLive = false)
      ∧ (¬ (0 ≤ env.input_index ∧ 0 ≤ env.output_index
            ∧ env.rnCreateOk = true ∧ env.devInitOk = true
            ∧ env.devStartOk = true) →
          (start_processing env s).is_processing = false
            ∧ (start_processing env s).rnLive = false
            ∧ (start_processing env s).deviceLive = false
            ∧ (start_processing env s).deviceRunning = false)
      ∧ ((start_processing env s).is_processing = true ↔
          (0 ≤ env.input_index ∧ 0 ≤ env.output_index ∧ env.rnCreateOk = true
            ∧ env.devInitOk = true ∧ env.devStartOk = true)) := by
  by_cases hsel : env.input_index < 0 ∨ env.output_index < 0
  · have hns : ¬ (0 ≤ env.input_index ∧ 0 ≤ env.output_index
        ∧ env.rnCreateOk = true ∧ env.devInitOk = true
        ∧ env.devStartOk = true) := by
      rcases hsel with hl | hr
      · intro hc; omega
      · intro hc; omega
    rw [start_processing, if_pos hsel]
    refine ⟨fun _ => ⟨rfl, h3⟩, ?_, ?_, fun _ => ⟨h1, h2, h3, h4⟩, ?_⟩
    · intro hc
      rcases hsel with hl | hr
      · omega
      · omega
    · intro hc
      rcases hsel with hl | hr
      · exact absurd hc (by intro hc2; omega)
      · exact absurd hc (by intro hc2; omega)
    · simp only [h1]
      simp only [Bool.false_eq_true, false_iff]
      exact hns
  · rw [start_processing, if_neg hsel]
    by_cases hrn : env.rnCreateOk
    · simp only [hrn, if_true]
      by_cases hdi : env.devInitOk
      · simp only [hdi, if_true]
        by_cases hds : env.devStartOk
        · simp only [hds, if_true]
          refine ⟨?_, ?_, ?_, ?_, ?_⟩
          · intro hc
            rcases hc with hl | hr | hf
            · exact absurd hl (by omega)
            · exact absurd hr (by omega)
            · exact absurd hf (by simp [hrn])
          · intro hc
            exact absurd hc.2.2.2 (by simp [hdi])
          · intro hc
            exact absurd hc.2.2.2.2 (by simp [hds])
          · intro hc
            exact absurd ⟨by omega, by omega, by simp [hrn], by simp [hdi],
              by simp [hds]⟩ hc
          · simp [hrn, hdi, hds]
            omega
        · have hds0 : env.devStartOk = false := by simpa using hds
          simp only [hds0, Bool.false_eq_true, if_false]
          refine ⟨?_, ?_, fun _ => ⟨rfl, rfl⟩, fun _ => ⟨h1, rfl, rfl, h4⟩, ?_⟩
          · intro hc
            rcases hc with hl | hr | hf
            · exact absurd hl (by omega)
            · exact absurd hr (by omega)
            · exact absurd hf (by simp [hrn])
          · intro hc
            exact absurd hc.2.2.2 (by simp [hdi])
          · rw [h1]
            simp [hds0]
      · have hdi0 : env.devInitOk = false := by simpa using hdi
        simp only [hdi0, Bool.false_eq_true, if_false]
        refine ⟨?_, fun _ => rfl, ?_, fun _ => ⟨h1, rfl, h3, h4⟩, ?_⟩
        · intro hc
          rcases hc with hl | hr | hf
          · exact absurd hl (by omega)
          · exact absurd hr (by omega)
          · exact absurd hf (by simp [hrn])
        · intro hc
          exact absurd hc.2.2.2.1 (by simp [hdi0])
        · rw [h1]
          simp [hdi0]
    · have hrn0 : env.rnCreateOk = false := by simpa using hrn
      simp only [hrn0, Bool.false_eq_true, if_false]
      refine ⟨fun _ => ⟨rfl, h3⟩, ?_, ?_, fun _ => ⟨h1, h2, h3, h4⟩, ?_⟩
      · intro hc
        exact absurd hc.2.2.1 (by simp [hrn0])
      · intro hc
        exact absurd hc.2.2.1 (by simp [hrn0])
      · rw [h1]
        simp [hrn0]

/-- Witness for C5 at a concrete failing run: from Idle, with valid
device selection, successful RNNoise allocation but failing
`ma_device_init`, the RNNoise state is released and the controller is
not processing. -/
theorem start_failure_atomic_witness :
    idleLifecycle.is_processing = false ∧ idleLifecycle.rnLive = false
      ∧ idleLifecycle.deviceLive = false
      ∧ idleLifecycle.deviceRunning = false
      ∧ (start_processing ⟨0, 0, true, false, true⟩ idleLifecycle).rnLive
          = false
      ∧ (start_processing ⟨0, 0, true, false, true⟩
          idleLifecycle).is_processing = false :=
  ⟨rfl, rfl, rfl, rfl,
    (start_failure_atomic ⟨0, 0, true, false, true⟩ idleLifecycle
        rfl rfl rfl rfl).2.1
      ⟨by norm_num, by norm_num, rfl, rfl⟩,
    ((start_failure_atomic ⟨0, 0, true, false, true⟩ idleLifecycle
        rfl rfl rfl rfl).2.2.2.1
      (by intro hc; exact absurd hc.2.2.2.1 (by decide))).1⟩

/-- C2 — Partial-window handling: for an active callback over `N` stereo
frames (`N` arbitrary), `duplex_callback` produces `⌈N/480⌉` windows,
each window handed to the suppression stage is a full 480-sample buffer
whose positions past the valid prefix `to_process` of the window are exactly
the zero padding, the per-window valid lengths sum to `N`, and the
total number of output frames written is exactly `N` — the padded tail
is never written to the output. -/
theorem partial_window_adapter {σ : Type}
    (rn : σ → Window480 → σ × Window480) (s : DenoiserState σ)
    (frames : List (ℤ × ℤ)) (hp : s.is_processing = true) :
    (duplex_callback rn s frames).2.windows.length
        = (frames.length + 479) / 480
      ∧ (duplex_callback rn s frames).2.writes.length = frames.length
      ∧ ((duplex_callback rn s frames).2.windows.map fun w => w.2).sum
          = frames.length
      ∧ ∀ w ∈ (duplex_callback rn s frames).2.windows,
          w.2 ≤ 480 ∧ w.1.val.length = 480
            ∧ w.1.val.drop w.2 = List.replicate (480 - w.2) 0 := by
  have hspec := duplexLoop_spec rn s.filter_enabled frames.length
    s.rnnoise_state frames (le_refl _)
  rw [duplex_callback, if_neg (by simp [hp])]
  exact ⟨hspec.1, hspec.2.1, hspec.2.2.1, hspec.2.2.2.2⟩

/-- Witness for C2 on a concrete 2-frame callback buffer (not a multiple
of 480): one window is produced and exactly 2 output frames are
written. -/
theorem partial_window_adapter_witness :
    sampleState.is_processing = true
      ∧ (duplex_callback idRn sampleState
          [((5 : ℤ), (7 : ℤ)), ((-3 : ℤ), (3 : ℤ))]).2.windows.length = 1
      ∧ (duplex_callback idRn sampleState
          [((5 : ℤ), (7 : ℤ)), ((-3 : ℤ), (3 : ℤ))]).2.writes.length = 2 := by
  have h := partial_window_adapter idRn sampleState
    [((5 : ℤ), (7 : ℤ)), ((-3 : ℤ), (3 : ℤ))] rfl
  exact ⟨rfl, h.1, h.2.1⟩

/-- C10 — The bandpass stage does not affect the real-time audio path:
two `duplex_callback` runs whose states agree on everything except the
two persistent biquad filter states produce identical traces (identical
output writes, windows and VU posts), and the callback leaves both
filter states untouched — `biquad_process` is never invoked on the
signal path in `audio_denoiser.c`. -/
theorem bandpass_noninterference {σ : Type}
    (rn : σ → Window480 → σ × Window480) (s1 s2 : DenoiserState σ)
    (frames : List (ℤ × ℤ))
    (hrn : s1.rnnoise_state = s2.rnnoise_state)
    (hip : s1.is_processing = s2.is_processing)
    (hfe : s1.filter_enabled = s2.filter_enabled)
    (hdi : s1.device_initialized = s2.device_initialized) :
    (duplex_callback rn s1 frames).2 = (duplex_callback rn s2 frames).2
      ∧ (duplex_callback rn s1 frames).1.bandpass_filter1
          = s1.bandpass_filter1
      ∧ (duplex_callback rn s1 frames).1.bandpass_filter2
          = s1.bandpass_filter2
      ∧ (duplex_callback rn s2 frames).1.bandpass_filter1
          = s2.bandpass_filter1
      ∧ (duplex_callback rn s2 frames).1.bandpass_filter2
          = s2.bandpass_filter2 := by
  obtain ⟨f1, f2, st1, ip1, fe1, di1⟩ := s1
  obtain ⟨g1, g2, st2, ip2, fe2, di2⟩ := s2
  simp only at hrn hip hfe hdi
  subst hrn
  subst hip
  subst hfe
  subst hdi
  by_cases h : ip1 = false
  · rw [duplex_callback, duplex_callback, if_pos (by simp [h]),
      if_pos (by simp [h])]
    exact ⟨rfl, rfl, rfl, rfl, rfl⟩
  · rw [duplex_callback, duplex_callback, if_neg (by simp [h]),
      if_neg (by simp [h])]
    exact ⟨rfl, rfl, rfl, rfl, rfl⟩

/-- Witness for C10 on two concrete states that differ only in their
biquad filter contents: the callback traces coincide and the filters
are left unchanged. -/
theorem bandpass_noninterference_witness :
    sampleState.rnnoise_state
        = ({ sampleState with
              bandpass_filter1 := ⟨1, 2, 3, 4, 5, 6, 7, 8, 9⟩ }
            : DenoiserState Unit).rnnoise_state
      ∧ (duplex_callback idRn sampleState [((9 : ℤ), (9 : ℤ))]).2
          = (duplex_callback idRn
              { sampleState with
                bandpass_filter1 := ⟨1, 2, 3, 4, 5, 6, 7, 8, 9⟩ }
              [((9 : ℤ), (9 : ℤ))]).2
      ∧ (duplex_callback idRn sampleState
          [((9 : ℤ), (9 : ℤ))]).1.bandpass_filter1
          = sampleState.bandpass_filter1 := by
  have h := bandpass_noninterference idRn sampleState
    { sampleState with bandpass_filter1 := ⟨1, 2, 3, 4, 5, 6, 7, 8, 9⟩ }
    [((9 : ℤ), (9 : ℤ))] rfl rfl rfl rfl
  exact ⟨rfl, h.1, h.2.1⟩

/-- C7 — Downmix domains: in `audio_denoiser.c` the mix is computed in
the `int32_t` domain, so for all 16-bit inputs the intermediate sum
stays far inside the 32-bit range, the truncated average is itself a
16-bit value, and the final `int16_t` conversion is the identity — in
particular `monoMixDenoiser` equals the exact truncated average
`(l + r) tdiv 2` with no overflow, and at the full-scale
opposite-polarity input (32767, −32768) it yields 0.  The `part_000`
variant, however, computes `l + r/2` instead of the average: at the
same input it feeds 16383 to the suppression stage, not the average. -/
theorem downmix_domains :
    (∀ l r : ℤ, -32768 ≤ l → l ≤ 32767 → -32768 ≤ r → r ≤ 32767 →
        monoMixDenoiser l r = (l + r).tdiv 2
          ∧ -(2 ^ 31) ≤ l + r ∧ l + r ≤ 2 ^ 31 - 1
          ∧ -32768 ≤ (l + r).tdiv 2 ∧ (l + r).tdiv 2 ≤ 32767)
      ∧ monoMixDenoiser 32767 (-32768) = 0
      ∧ monoMixPart000 32767 (-32768) = ((16383 : ℤ) : ℚ)
      ∧ monoMixPart000 32767 (-32768)
          ≠ ((monoMixDenoiser 32767 (-32768) : ℤ) : ℚ) := by
  have e0 : (32767 + (-32768 : ℤ).tdiv 2 : ℤ) = 16383 := by decide
  have e1 : monoMixPart000 32767 (-32768) = ((16383 : ℤ) : ℚ) := by
    unfold monoMixPart000
    rw [e0]
  have e2 : monoMixDenoiser 32767 (-32768) = 0 := by decide
  refine ⟨?_, e2, e1, ?_⟩
  · intro l r h1 h2 h3 h4
    have ht := tdivTwoChar (l + r)
    have hb : -32768 ≤ (l + r).tdiv 2 ∧ (l + r).tdiv 2 ≤ 32767 := by
      rcases le_or_lt 0 (l + r) with h | h
      · rw [ht, if_pos h]
        constructor <;> omega
      · rw [ht, if_neg (by omega)]
        constructor <;> omega
    exact ⟨int16CastOfInt_eq_self _ hb.1 hb.2, by omega, by omega,
      hb.1, hb.2⟩
  · rw [e1, e2]
    norm_num

/-- Witness for C7 at the full-scale opposite-polarity input: the
`audio_denoiser.c` mix is the exact truncated average with the sum well
inside the 32-bit range. -/
theorem downmix_domains_witness :
    -32768 ≤ (32767 : ℤ) ∧ (32767 : ℤ) ≤ 32767
      ∧ -32768 ≤ (-32768 : ℤ) ∧ (-32768 : ℤ) ≤ 32767
      ∧ (monoMixDenoiser 32767 (-32768)
          = ((32767 : ℤ) + -32768).tdiv 2
        ∧ -(2 ^ 31) ≤ (32767 : ℤ) + -32768
        ∧ (32767 : ℤ) + -32768 ≤ 2 ^ 31 - 1
        ∧ -32768 ≤ ((32767 : ℤ) + -32768).tdiv 2
        ∧ ((32767 : ℤ) + -32768).tdiv 2 ≤ 32767) :=
  ⟨by decide, by decide, by decide, by decide,
    downmix_domains.1 32767 (-32768) (by decide) (by decide) (by decide)
      (by decide)⟩

/-- C8 — Level meter: the volume the duplex callback hands to `sqrtf`
is built from `volume += l * r` (`src/audio_denoiser.c:202`), the
product of left and right channel samples, so its radicand is negative
for anti-correlated channels — at the single-frame input
`(l, r) = (1, -1)` the callback posts radicand −1, and
`sqrtf(-1) / 32768` is NaN.  The documented RMS formulation
(`calculate_rms_volume`, unused on this path) instead always has a
nonnegative radicand, with exact value 0 on an all-zero window. -/
theorem meter_radicand_negative :
    duplexVolumeRadicand [((1 : ℤ), (-1 : ℤ))] = -1
      ∧ (duplex_callback idRn sampleState [((1 : ℤ), (-1 : ℤ))]).2.posts
          = [-1]
      ∧ (∀ samples : List ℤ, 0 ≤ calculate_rms_volume_radicand samples)
      ∧ calculate_rms_volume_radicand (List.replicate 480 0) = 0 := by
  have h1 : duplexVolumeRadicand [((1 : ℤ), (-1 : ℤ))] = -1 := by
    norm_num [duplexVolumeRadicand]
  refine ⟨h1, ?_, ?_, ?_⟩
  · rw [duplex_callback, if_neg (by decide)]
    show (duplexLoop idRn true () [((1 : ℤ), (-1 : ℤ))] 1).2.posts = [-1]
    rw [duplexLoop_succ_true idRn () [((1 : ℤ), (-1 : ℤ))] 0 (by decide)]
    simp only [DuplexTrace.posts]
    rw [duplexLoop]
    rw [show List.take 480 [((1 : ℤ), (-1 : ℤ))] = [((1 : ℤ), (-1 : ℤ))]
      from rfl]
    rw [h1]
  · intro samples
    apply div_nonneg
    · apply List.sum_nonneg
      intro x hx
      obtain ⟨s, hs, rfl⟩ := List.mem_map.mp hx
      exact_mod_cast mul_self_nonneg s
    · exact Nat.cast_nonneg _
  · norm_num [calculate_rms_volume_radicand]

/-- C3 (amended) — Clipping boundary: the conversion of
`src/rnnoise_gui.c:278-283` (and the `part_000` variant) hard-clamps —
every value above 32767.0 maps to exactly 32767, every value below
−32768.0 to exactly −32768, the result is always inside the 16-bit
range (never wraps), and at the boundary 32767.4 yields 32767 and
−32768.6 yields −32768.  By contrast the raw float-to-int16 cast of
`src/audio_denoiser.c:218` (`int16CastOfFloat`) is applied with no
clamp and is undefined for every value of 32768 or above, or of −32769
or below. -/
theorem clipping_boundary :
    (∀ q : ℚ,
        (32767 < q → rnnoiseGuiConvert q = 32767)
          ∧ (q < -32768 → rnnoiseGuiConvert q = -32768)
          ∧ (-32768 ≤ rnnoiseGuiConvert q ∧ rnnoiseGuiConvert q ≤ 32767)
          ∧ (32768 ≤ q → int16CastOfFloat q = none)
          ∧ (q ≤ -32769 → int16CastOfFloat q = none))
      ∧ rnnoiseGuiConvert (32767.4 : ℚ) = 32767
      ∧ rnnoiseGuiConvert (-32768.6 : ℚ) = -32768 := by
  have hT1 : ratTrunc (32767 : ℚ) = 32767 := by
    norm_num [ratTrunc]
  have hT2 : ratTrunc (-32768 : ℚ) = -32768 := by
    norm_num [ratTrunc, Int.ceil_neg]
  have hmain : ∀ q : ℚ,
      (32767 < q → rnnoiseGuiConvert q = 32767)
        ∧ (q < -32768 → rnnoiseGuiConvert q = -32768)
        ∧ (-32768 ≤ rnnoiseGuiConvert q ∧ rnnoiseGuiConvert q ≤ 32767)
        ∧ (32768 ≤ q → int16CastOfFloat q = none)
        ∧ (q ≤ -32769 → int16CastOfFloat q = none) := by
    intro q
    have ha : 32767 < q → rnnoiseGuiConvert q = 32767 := by
      intro hq
      simp only [rnnoiseGuiConvert]
      rw [if_pos hq, if_neg (by norm_num), hT1]
    have hb : q < -32768 → rnnoiseGuiConvert q = -32768 := by
      intro hq
      simp only [rnnoiseGuiConvert]
      rw [if_neg (show ¬ (32767 : ℚ) < q from by linarith),
        if_pos hq, hT2]
    refine ⟨ha, hb, ?_, ?_, ?_⟩
    · by_cases hq1 : 32767 < q
      · rw [ha hq1]
        norm_num
      · by_cases hq2 : q < -32768
        · rw [hb hq2]
          norm_num
        · have hle : q ≤ 32767 := not_lt.mp hq1
          have hge : -32768 ≤ q := not_lt.mp hq2
          simp only [rnnoiseGuiConvert]
          rw [if_neg hq1, if_neg hq2]
          unfold ratTrunc
          split
          · constructor
            · exact Int.le_floor.mpr (by exact_mod_cast hge)
            · exact_mod_cast (Int.floor_le q).trans hle
          · constructor
            · exact_mod_cast hge.trans (Int.le_ceil q)
            · exact Int.ceil_le.mpr (by exact_mod_cast hle)
    · intro hq
      have h0 : (0 : ℚ) ≤ q := by linarith
      have hbig : (32768 : ℤ) ≤ ratTrunc q := by
        unfold ratTrunc
        rw [if_pos h0]
        exact Int.le_floor.mpr (by exact_mod_cast hq)
      unfold int16CastOfFloat
      rw [if_neg (by intro hcon; omega)]
    · intro hq
      have h0 : ¬ (0 : ℚ) ≤ q := by intro h0; linarith
      have hsmall : ratTrunc q ≤ -32769 := by
        unfold ratTrunc
        rw [if_neg h0]
        exact Int.ceil_le.mpr (by exact_mod_cast hq)
      unfold int16CastOfFloat
      rw [if_neg (by intro hcon; omega)]
  exact ⟨hmain, (hmain _).1 (by norm_num), (hmain _).2.1 (by norm_num)⟩

/-- Witness for C3 at concrete boundary and out-of-range inputs. -/
theorem clipping_boundary_witness :
    32767 < (32767.4 : ℚ) ∧ rnnoiseGuiConvert (32767.4 : ℚ) = 32767
      ∧ (-32768.6 : ℚ) < -32768
      ∧ rnnoiseGuiConvert (-32768.6 : ℚ) = -32768
      ∧ (32768 : ℚ) ≤ 40000 ∧ int16CastOfFloat (40000 : ℚ) = none :=
  ⟨by norm_num, (clipping_boundary.1 _).1 (by norm_num), by norm_num,
    (clipping_boundary.1 _).2.1 (by norm_num), by norm_num,
    (clipping_boundary.1 _).2.2.2.1 (by norm_num)⟩

/-- Counterexample to C3 as stated: in `audio_denoiser.c` the
suppression output is fed to the float-to-int16 cast with no clamp.
With a suppressor whose output window is the constant 40000.0 (a value
above 32767.0), the output write of the callback is the undefined cast of an
out-of-range value (`none`) — not the claimed clamped value 32767. -/
theorem clipping_missing_in_callback :
    (duplex_callback (constRn 40000) sampleState
        [((0 : ℤ), (0 : ℤ))]).2.writes = [none]
      ∧ (none : Option ℤ) ≠ some (32767 : ℤ) := by
  constructor
  · rw [duplex_callback, if_neg (by decide)]
    show (duplexLoop (constRn 40000) true () [((0 : ℤ), (0 : ℤ))]
        1).2.writes = [none]
    rw [duplexLoop_succ_true (constRn 40000) () [((0 : ℤ), (0 : ℤ))] 0
      (by decide)]
    simp only [DuplexTrace.writes]
    rw [duplexLoop]
    simp only [DuplexTrace.writes, List.append_nil]
    rw [show List.take 480 [((0 : ℤ), (0 : ℤ))] = [((0 : ℤ), (0 : ℤ))]
      from rfl]
    show ((mkWindow (List.replicate 480 (40000 : ℚ))).val.take 1).map
        int16CastOfFloat = [none]
    rw [mkWindow_val _ (List.length_replicate 480 (40000 : ℚ)).le]
    simp only [List.length_replicate, Nat.sub_self, List.replicate_zero,
      List.append_nil, List.take_replicate]
    have hc : int16CastOfFloat (40000 : ℚ) = none := by
      have ht : ratTrunc (40000 : ℚ) = 40000 := by
        norm_num [ratTrunc]
      unfold int16CastOfFloat
      rw [if_neg (by rw [ht]; intro hcon; omega)]
    simp [hc]
  · simp

/-- C1 (amended) — Warm-up discard on the WAV-file path: for an input of
`480·D` samples (`D ≥ 1` full windows), `process_audio` runs RNNoise on
the first window and threads its state onward (skip-write, not
skip-compute: the remainder of the run starts from the state
`(rn st w₁).1`), but discards the converted output of that window, so the
output stream is exactly the converted output of windows 2..D and its
length is `480·(D − 1)`.  (The real-time playback path of
`audio_denoiser.c` has no such skip — see the counterexample — and the
skip flag of the `part_000` variant is a process-wide `static`, so it skips
once per process, not once per stream session.) -/
theorem warmup_discard_file_path {σ : Type}
    (rn : σ → Window480 → σ × Window480) (st : σ) (input : List ℤ)
    (D : ℕ) (hD : 1 ≤ D) (hlen : input.length = 480 * D) :
    process_audio rn st input
        = processLoopGui rn (rn st (guiWindow (input.take 480))).1 false
            (input.drop 480) (input.length - 1)
      ∧ (process_audio rn st input).2.length = 480 * (D - 1) := by
  have hne : ¬ input = [] := by
    intro h
    rw [h] at hlen
    simp at hlen
    omega
  have hpos : 0 < input.length := List.length_pos.mpr hne
  have hstep : process_audio rn st input
      = processLoopGui rn (rn st (guiWindow (input.take 480))).1 false
          (input.drop 480) (input.length - 1) := by
    rw [process_audio]
    have hfuel : input.length = (input.length - 1) + 1 := by omega
    conv_lhs => rw [hfuel]
    rw [processLoopGui_succ rn st true input (input.length - 1) hne]
    simp
  refine ⟨hstep, ?_⟩
  rw [hstep]
  have hfl := processLoopGui_false_length rn (input.length - 1)
    (rn st (guiWindow (input.take 480))).1 (input.drop 480)
    (by rw [List.length_drop]; omega)
  rw [hfl, List.length_drop]
  omega

/-- Witness for C1 (amended) at a concrete one-window input: 480
samples in, 0 samples out. -/
theorem warmup_discard_file_path_witness :
    1 ≤ 1 ∧ (List.replicate 480 (7 : ℤ)).length = 480 * 1
      ∧ (process_audio idRn () (List.replicate 480 (7 : ℤ))).2.length
          = 480 * (1 - 1) :=
  ⟨le_refl 1, by rw [List.length_replicate],
    (warmup_discard_file_path idRn () (List.replicate 480 (7 : ℤ)) 1
      (le_refl 1) (by rw [List.length_replicate])).2⟩

set_option maxRecDepth 8000 in
/-- Counterexample to C1 as stated: the real-time duplex callback of
`audio_denoiser.c` performs no warm-up skip.  For a stream session with
a freshly created suppression state and one full 480-frame window of
input, the claim predicts zero output frames written (D − 1 windows
with D = 1); the callback in fact writes all 480 output frames,
including the output of the first window. -/
theorem warmup_not_discarded_in_callback :
    (duplex_callback idRn sampleState
        (List.replicate 480 ((1000 : ℤ), (1000 : ℤ)))).2.writes.length = 480
      ∧ (480 : ℕ) ≠ 0 := by
  constructor
  · have h := duplexLoop_spec idRn true 480 ()
      (List.replicate 480 ((1000 : ℤ), (1000 : ℤ)))
      (by rw [List.length_replicate])
    rw [duplex_callback, if_neg (by decide)]
    show (duplexLoop idRn true ()
        (List.replicate 480 ((1000 : ℤ), (1000 : ℤ)))
        (List.replicate 480 ((1000 : ℤ), (1000 : ℤ))).length).2.writes.length
        = 480
    rw [List.length_replicate]
    rw [h.2.1, List.length_replicate]
  · decide
